import Mathlib

/-!
Shallow embedding of the Tock kernel scheduler substrate
(`kernel/src/sched.rs`): the dispatcher `do_process`, its syscall
decoding, the kernel registry operations `process_map_or` /
`appid_is_valid`, and one inner iteration of `kernel_loop`.

The dispatcher's interactions with hardware and with the rest of the
kernel (scheduler timer readings, context-switch outcomes, driver
capsule results, the platform syscall filter, `process.allow`
validation) are modelled as explicit oracle inputs; the state the
dispatcher mutates (process state, task queue) is threaded explicitly,
and side effects (return-value writes, context switches, driver calls)
are recorded in an event trace.
-/

namespace Tock

/-- `MIN_QUANTA_THRESHOLD_US` from sched.rs: skip re-scheduling a
process if its quanta is nearly exhausted. -/
def MIN_QUANTA_THRESHOLD_US : Nat := 500

/-- 2^32, the modulus of `u32` arithmetic. -/
def U32_MOD : Nat := 4294967296

/-- Wrapping subtraction on `u32` values (release-mode Rust `-`):
`(a - b) mod 2^32`, for `a b < 2^32`. -/
def u32WrappingSub (a b : Nat) : Nat :=
  (a + U32_MOD - b % U32_MOD) % U32_MOD

/-- Modelled from the spec (callback.rs is not in the sources):
`AppId` combines a slot index and a generation identifier; the
identifier uniquely names a process. -/
structure AppId where
  index : Nat
  id : Nat
deriving DecidableEq, Repr

/-- Modelled from the spec (callback.rs is not in the sources): Rust
equality `==` on `AppId` compares the identifiers, matching the spec's
description of `process_map_or` rejecting when "the occupant's
identifier differs". -/
def AppId.rustEq (a b : AppId) : Bool :=
  a.id == b.id

/-- `CallbackId` from callback.rs: the identity of a callback slot. -/
structure CallbackId where
  driver_num : Nat
  subscribe_num : Nat
deriving DecidableEq, Repr

/-- `Callback` record constructed by the SUBSCRIBE handler in sched.rs:
caller AppId, identity, user-data cookie, function pointer. -/
structure Callback where
  app_id : AppId
  callback_id : CallbackId
  appdata : Nat
  fn_ptr : Nat
deriving DecidableEq, Repr

/-- Modelled from the spec (process.rs is not in the sources): a task
queued for a process is either a function-call callback (PC plus four
word-sized arguments, tagged with the callback identity when it came
from a driver subscription) or an IPC notification. -/
inductive Task where
  | FunctionCall (source : Option CallbackId) (pc a0 a1 a2 a3 : Nat)
  | IPC (otherapp : AppId) (ipc_type : Nat)
deriving DecidableEq, Repr

/-- `process::State` from process.rs (as used by sched.rs). -/
inductive State where
  | Unstarted
  | Running
  | Yielded
  | Fault
  | StoppedRunning
  | StoppedYielded
  | StoppedFaulted
deriving DecidableEq, Repr

/-- `StoppedExecutingReason` from sched.rs. -/
inductive StoppedExecutingReason where
  | NoWorkLeft
  | StoppedFaulted
  | Stopped
  | TimesliceExpired
  | KernelPreemption
deriving DecidableEq, Repr

/-- `Syscall` from syscall.rs, as decoded in sched.rs. -/
inductive Syscall where
  | YIELD
  | SUBSCRIBE (driver_number subdriver_number callback_ptr appdata : Nat)
  | COMMAND (driver_number subdriver_number arg0 arg1 : Nat)
  | ALLOW (driver_number subdriver_number allow_address allow_size : Nat)
  | MEMOP (operand arg0 : Nat)
deriving DecidableEq, Repr

/-- `ContextSwitchReason` from syscall.rs, as matched in sched.rs. -/
inductive ContextSwitchReason where
  | Fault
  | SyscallFired (syscall : Syscall)
  | Interrupted
deriving DecidableEq, Repr

/-- A shared slice handed to a driver by ALLOW (`AppSlice`): base
address and length. -/
structure AppSlice where
  ptr : Nat
  len : Nat
deriving DecidableEq, Repr

/-- `ReturnCode` from returncode.rs (the closed ABI set the spec
names). -/
inductive ReturnCode where
  | SUCCESS
  | FAIL
  | EBUSY
  | EALREADY
  | EOFF
  | ERESERVE
  | EINVAL
  | ESIZE
  | ECANCEL
  | ENOMEM
  | ENOSUPPORT
  | ENODEVICE
  | EUNINSTALLED
  | ENOACK
deriving DecidableEq, Repr

/-- A driver capsule as seen by sched.rs: `subscribe`, `command` and
`allow` entry points, modelled as oracles for the results they return. -/
structure Driver where
  subscribe : Nat → Option Callback → AppId → ReturnCode
  command : Nat → Nat → Nat → AppId → ReturnCode
  allow : AppId → Nat → Option AppSlice → ReturnCode

/-- A process as seen by the dispatcher: its identity, state and task
queue, plus its `allow(addr, size)` validation, modelled as an oracle
returning either the shared slice or the validation error. -/
structure Process where
  appid : AppId
  state : State
  tasks : List Task
  allowFn : Nat → Nat → Except ReturnCode (Option AppSlice)

/-- The platform as seen by sched.rs: `filter_syscall` (`some e` models
`Err(e)`, i.e. denial with error `e`; `none` models `Ok(())`),
`with_driver` lookup, and the result of the `memop` handler as an
oracle (memop.rs is not in the sources). -/
structure PlatformEnv where
  filter : Process → Syscall → Option ReturnCode
  driver : Nat → Option Driver
  memop : Nat → Nat → ReturnCode

/-- Observable side effects of one dispatcher iteration, in program
order. -/
inductive Event where
  | SetReturnValue (v : ReturnCode)
  | SetYielded
  | ContextSwitch
  | SetFaultState
  | SetProcessFunction (pc a0 a1 a2 a3 : Nat)
  | ScheduleIPC (otherapp : AppId) (ipc_type : Nat)
  | RemovePendingCallbacks (id : CallbackId)
  | DriverSubscribeCall (driver sub : Nat) (cb : Option Callback)
  | DriverCommandCall (driver sub a0 a1 : Nat)
  | ProcessAllowCheck (addr size : Nat)
  | DriverAllowCall (sub : Nat) (slice : Option AppSlice)
  | MemopCall (operand arg0 : Nat)

/-- Modelled from the spec (process.rs is not in the sources):
`remove_pending_callbacks(id)` removes from the task queue every
pending function-call callback whose identity matches `id`. -/
def removePendingCallbacks (tasks : List Task) (id : CallbackId) : List Task :=
  tasks.filter (fun t =>
    match t with
    | Task.FunctionCall (some cid) _ _ _ _ _ => decide (cid ≠ id)
    | _ => true)

/-- The syscall dispatch `match syscall { ... }` of `do_process`
(sched.rs lines 575-714), after the filter has been consulted. Returns
the updated process and the trace of side effects. -/
def dispatchSyscall (plat : PlatformEnv) (p : Process) (sc : Syscall) :
    Process × List Event :=
  match sc with
  | Syscall.MEMOP operand arg0 =>
      let res := plat.memop operand arg0
      (p, [Event.MemopCall operand arg0, Event.SetReturnValue res])
  | Syscall.YIELD =>
      ({ p with state := State.Yielded }, [Event.SetYielded])
  | Syscall.SUBSCRIBE driver_number subdriver_number callback_ptr appdata =>
      let callback_id : CallbackId :=
        { driver_num := driver_number, subscribe_num := subdriver_number }
      let p1 : Process :=
        { p with tasks := removePendingCallbacks p.tasks callback_id }
      let callback : Option Callback :=
        if callback_ptr = 0 then none
        else some { app_id := p.appid, callback_id := callback_id,
                    appdata := appdata, fn_ptr := callback_ptr }
      match plat.driver driver_number with
      | some d =>
          let res := d.subscribe subdriver_number callback p.appid
          (p1, [Event.RemovePendingCallbacks callback_id,
                Event.DriverSubscribeCall driver_number subdriver_number callback,
                Event.SetReturnValue res])
      | none =>
          (p1, [Event.RemovePendingCallbacks callback_id,
                Event.SetReturnValue ReturnCode.ENODEVICE])
  | Syscall.COMMAND driver_number subdriver_number arg0 arg1 =>
      match plat.driver driver_number with
      | some d =>
          let res := d.command subdriver_number arg0 arg1 p.appid
          (p, [Event.DriverCommandCall driver_number subdriver_number arg0 arg1,
               Event.SetReturnValue res])
      | none =>
          (p, [Event.SetReturnValue ReturnCode.ENODEVICE])
  | Syscall.ALLOW driver_number subdriver_number allow_address allow_size =>
      match plat.driver driver_number with
      | some d =>
          match p.allowFn allow_address allow_size with
          | Except.ok oslice =>
              let res := d.allow p.appid subdriver_number oslice
              (p, [Event.ProcessAllowCheck allow_address allow_size,
                   Event.DriverAllowCall subdriver_number oslice,
                   Event.SetReturnValue res])
          | Except.error err =>
              (p, [Event.ProcessAllowCheck allow_address allow_size,
                   Event.SetReturnValue err])
      | none =>
          (p, [Event.SetReturnValue ReturnCode.ENODEVICE])

/-- Syscall handling in `do_process` (sched.rs lines 550-714): every
syscall other than YIELD is first put to `platform.filter_syscall`; a
denial writes the filter's error as the syscall return value and skips
dispatch (the Rust `continue`). -/
def handleSyscall (plat : PlatformEnv) (p : Process) (sc : Syscall) :
    Process × List Event :=
  if sc = Syscall.YIELD then
    dispatchSyscall plat p sc
  else
    match plat.filter p sc with
    | some response => (p, [Event.SetReturnValue response])
    | none => dispatchSyscall plat p sc

/-- Per-iteration oracle inputs to the `do_process` loop: the scheduler
timer readings at the top of the iteration, the scheduler's
`leave_do_process` answer, the outcome of `process.switch_to()` (used
only when the process is Running; `none` models a failed switch), and
the timer's `has_expired()` reading after an interrupted switch. -/
structure IterEnv where
  timerExpired : Bool
  remaining : Nat
  leave : Bool
  switchReason : Option ContextSwitchReason
  timerExpiredAfterSwitch : Bool

/-- Outcome of one iteration of the `do_process` loop. -/
inductive StepOut where
  | brk (r : StoppedExecutingReason) (p : Process) (evs : List Event)
  | cont (p : Process) (evs : List Event)
  | panicked (msg : String) (p : Process) (evs : List Event)

/-- One iteration of the `loop` in `do_process` (sched.rs lines
517-791): the timeslice-expiry check, the `leave_do_process` check, and
the dispatch on the process state. -/
def doProcessStep (plat : PlatformEnv) (ipcWired : Bool) (env : IterEnv)
    (p : Process) : StepOut :=
  if env.timerExpired || decide (env.remaining ≤ MIN_QUANTA_THRESHOLD_US) then
    StepOut.brk StoppedExecutingReason.TimesliceExpired p []
  else if env.leave then
    StepOut.brk StoppedExecutingReason.KernelPreemption p []
  else
    match p.state with
    | State.Running =>
        match env.switchReason with
        | some ContextSwitchReason.Fault =>
            StepOut.cont { p with state := State.Fault }
              [Event.ContextSwitch, Event.SetFaultState]
        | some (ContextSwitchReason.SyscallFired sc) =>
            let (p1, evs) := handleSyscall plat p sc
            StepOut.cont p1 (Event.ContextSwitch :: evs)
        | some ContextSwitchReason.Interrupted =>
            if env.timerExpiredAfterSwitch then
              StepOut.brk StoppedExecutingReason.TimesliceExpired p
                [Event.ContextSwitch]
            else
              StepOut.cont p [Event.ContextSwitch]
        | none =>
            StepOut.cont { p with state := State.Fault }
              [Event.ContextSwitch, Event.SetFaultState]
    | State.Yielded =>
        match p.tasks with
        | [] => StepOut.brk StoppedExecutingReason.NoWorkLeft p []
        | t :: rest =>
            match t with
            | Task.FunctionCall _ pc a0 a1 a2 a3 =>
                StepOut.cont { p with tasks := rest }
                  [Event.SetProcessFunction pc a0 a1 a2 a3]
            | Task.IPC otherapp ipc_type =>
                if ipcWired then
                  StepOut.cont { p with tasks := rest }
                    [Event.ScheduleIPC otherapp ipc_type]
                else
                  StepOut.panicked "Kernel consistency error: IPC Task with no IPC"
                    { p with tasks := rest } []
    | State.Unstarted =>
        match p.tasks with
        | [] => StepOut.brk StoppedExecutingReason.NoWorkLeft p []
        | t :: rest =>
            match t with
            | Task.FunctionCall _ pc a0 a1 a2 a3 =>
                StepOut.cont { p with tasks := rest }
                  [Event.SetProcessFunction pc a0 a1 a2 a3]
            | Task.IPC otherapp ipc_type =>
                if ipcWired then
                  StepOut.cont { p with tasks := rest }
                    [Event.ScheduleIPC otherapp ipc_type]
                else
                  StepOut.panicked "Kernel consistency error: IPC Task with no IPC"
                    { p with tasks := rest } []
    | State.Fault =>
        StepOut.panicked "Attempted to schedule a faulty process" p []
    | State.StoppedRunning =>
        StepOut.brk StoppedExecutingReason.Stopped p []
    | State.StoppedYielded =>
        StepOut.brk StoppedExecutingReason.Stopped p []
    | State.StoppedFaulted =>
        StepOut.brk StoppedExecutingReason.StoppedFaulted p []

/-- Outcome of running the `do_process` loop over a finite stream of
per-iteration oracle inputs. `outOfEnvs` means the oracle stream was
exhausted while the loop would continue. -/
inductive RunOut where
  | finished (r : StoppedExecutingReason) (p : Process) (evs : List Event)
  | panicked (msg : String) (p : Process) (evs : List Event)
  | outOfEnvs (p : Process) (evs : List Event)

/-- The `do_process` loop, iterated over a finite oracle stream,
accumulating the event trace. -/
def doProcessRun (plat : PlatformEnv) (ipcWired : Bool) :
    List IterEnv → Process → List Event → RunOut
  | [], p, acc => RunOut.outOfEnvs p acc
  | e :: es, p, acc =>
      match doProcessStep plat ipcWired e p with
      | StepOut.brk r p1 evs => RunOut.finished r p1 (acc ++ evs)
      | StepOut.cont p1 evs => doProcessRun plat ipcWired es p1 (acc ++ evs)
      | StepOut.panicked m p1 evs => RunOut.panicked m p1 (acc ++ evs)

/-- The timeslice accounting at the end of `do_process` (sched.rs lines
792-798): if a quantum was set, report
`min(timeslice - get_remaining_us(), timeslice)` with `u32` wrapping
subtraction; for cooperative runs report `none`. `exitRemaining` is the
timer's `get_remaining_us()` reading at exit. -/
def timeExecutedUs (timeslice_us : Option Nat) (exitRemaining : Nat) :
    Option Nat :=
  timeslice_us.map (fun timeslice =>
    min (u32WrappingSub timeslice exitRemaining) timeslice)

/-- `do_process` (sched.rs lines 499-801): run the loop over the oracle
stream and compute the reported execution time from the timer reading
at exit. -/
def doProcess (plat : PlatformEnv) (ipcWired : Bool)
    (timeslice_us : Option Nat) (envs : List IterEnv) (exitRemaining : Nat)
    (p : Process) : RunOut × Option Nat :=
  (doProcessRun plat ipcWired envs p [], timeExecutedUs timeslice_us exitRemaining)

/-- Modelled from the spec (platform/scheduler_timer.rs is not in the
sources): the dummy scheduler timer used for cooperative runs reports
`has_expired() = false`. -/
def dummyHasExpired : Bool := false

/-- Modelled from the spec (platform/scheduler_timer.rs is not in the
sources): the dummy scheduler timer reports `get_remaining_us() =
u32::MAX` (unbounded remaining). -/
def dummyRemainingUs : Nat := 4294967295

/-- An oracle input whose timer readings are those of the dummy
scheduler timer (a cooperative run). -/
def IterEnv.dummyTimer (e : IterEnv) : Prop :=
  e.timerExpired = dummyHasExpired ∧ e.remaining = dummyRemainingUs ∧
    e.timerExpiredAfterSwitch = dummyHasExpired

/-- `process_map_or` from sched.rs: direct-index lookup at
`appid.index`; Rust's `slice.get` is `List.get?`, the two `map_or(None,
...)` are `Option.bind`, and the final `unwrap_or(default)` is
`Option.getD`. -/
def process_map_or {R : Type _} (processes : List (Option Process))
    (default : R) (appid : AppId) (closure : Process → R) : R :=
  ((processes.get? appid.index).bind (fun process_entry =>
    process_entry.bind (fun process =>
      if AppId.rustEq process.appid appid then some (closure process)
      else none))).getD default

/-- `appid_is_valid` from sched.rs: slot `appid.index` is occupied by a
process whose identifier equals `appid.id`. -/
def appid_is_valid (processes : List (Option Process)) (appid : AppId) :
    Bool :=
  ((processes.get? appid.index).map (fun p =>
    p.elim false (fun process => process.appid.id == appid.id))).getD false

/-- Observable actions of one inner-loop iteration of `kernel_loop`. -/
inductive LoopEvent where
  | DoProcessCall (appid : AppId)
  | SchedulerResult (r : StoppedExecutingReason) (t : Option Nat)

/-- One iteration of the inner loop of `kernel_loop` (sched.rs lines
443-456) after `break_for_kernel_tasks` returned false: query the
scheduler's `next()`, and if an `AppId` was named, run `do_process` on
the matching process via `process_map_or` and report the result to the
scheduler. `runProcess` abstracts the `do_process` call. -/
def kernelLoopInnerIteration (processes : List (Option Process))
    (nextResult : Option AppId × Option Nat)
    (runProcess : Process → Option Nat → StoppedExecutingReason × Option Nat) :
    List LoopEvent :=
  match nextResult.1 with
  | none => []
  | some appid =>
      process_map_or processes [] appid (fun process =>
        let rt := runProcess process nextResult.2
        [LoopEvent.DoProcessCall process.appid,
         LoopEvent.SchedulerResult rt.1 rt.2])

end Tock

namespace Tock

/-- Sample driver used in concrete witnesses. -/
def sampleDriver : Driver where
  subscribe := fun _ _ _ => ReturnCode.SUCCESS
  command := fun _ _ _ _ => ReturnCode.SUCCESS
  allow := fun _ _ _ => ReturnCode.SUCCESS

/-- Sample platform (filter passes everything, every driver present)
used in concrete witnesses. -/
def samplePlat : PlatformEnv where
  filter := fun _ _ => none
  driver := fun _ => some sampleDriver
  memop := fun _ _ => ReturnCode.SUCCESS

/-- Sample platform with no drivers installed, used in concrete
witnesses and counterexamples. -/
def samplePlatNoDriver : PlatformEnv where
  filter := fun _ _ => none
  driver := fun _ => none
  memop := fun _ _ => ReturnCode.SUCCESS

/-- Sample process used in concrete witnesses. -/
def sampleProcess : Process where
  appid := { index := 0, id := 0 }
  state := State.Running
  tasks := []
  allowFn := fun _ _ => Except.ok none

/-- C1: for every invocation of `do_process` with a timeslice quantum
`T` (both `T` and the exit reading `r` being `u32` values), the
reported execution time is `some (min (T -w r) T)` where `-w` is `u32`
wrapping subtraction, hence `0 ≤ t ≤ T`; when the timer reports
`r ≤ T` the value is exactly `T - r`, and when it reports `r > T`
(clock skew) the value is clamped to `T`. -/
theorem c1_timeslice_accounting (plat : PlatformEnv) (ipcWired : Bool)
    (envs : List IterEnv) (p : Process) (T r : Nat)
    (hT : T < U32_MOD) (hr : r < U32_MOD) :
    ∃ v, (doProcess plat ipcWired (some T) envs r p).2 = some v ∧
      v = min (u32WrappingSub T r) T ∧ v ≤ T ∧
      (r ≤ T → v = T - r) ∧ (T < r → v = T) := by
  refine ⟨min (u32WrappingSub T r) T, rfl, rfl, min_le_right _ _, ?_, ?_⟩
  · intro h
    have hw : u32WrappingSub T r = T - r := by
      simp only [u32WrappingSub, U32_MOD] at *
      omega
    rw [hw, min_eq_left (Nat.sub_le _ _)]
  · intro h
    have hw : T ≤ u32WrappingSub T r := by
      simp only [u32WrappingSub, U32_MOD] at *
      omega
    rw [min_eq_right hw]

/-- C1 witness: quantum 10000 µs, exit reading 400 µs. -/
theorem c1_timeslice_accounting_witness :
    ∃ v, (doProcess samplePlat true (some 10000) [] 400 sampleProcess).2 = some v ∧
      v = min (u32WrappingSub 10000 400) 10000 ∧ v ≤ 10000 ∧
      (400 ≤ 10000 → v = 10000 - 400) ∧ (10000 < 400 → v = 10000) :=
  c1_timeslice_accounting samplePlat true [] sampleProcess 10000 400
    (by decide) (by decide)

/-- C2: at the top of any `do_process` loop iteration, if the scheduler
timer has expired or its remaining time is at most
`MIN_QUANTA_THRESHOLD_US`, the iteration breaks with `TimesliceExpired`
and an empty event trace (in particular no context switch), and the
whole run returns `TimesliceExpired` with the process untouched. -/
theorem c2_min_quanta_threshold (plat : PlatformEnv) (ipcWired : Bool)
    (e : IterEnv) (es : List IterEnv) (p : Process)
    (h : e.timerExpired = true ∨ e.remaining ≤ MIN_QUANTA_THRESHOLD_US) :
    doProcessStep plat ipcWired e p =
      StepOut.brk StoppedExecutingReason.TimesliceExpired p [] ∧
    doProcessRun plat ipcWired (e :: es) p [] =
      RunOut.finished StoppedExecutingReason.TimesliceExpired p [] := by
  have hc : (e.timerExpired || decide (e.remaining ≤ MIN_QUANTA_THRESHOLD_US)) = true := by
    rcases h with h | h <;> simp [h]
  constructor
  · simp [doProcessStep, hc]
  · simp [doProcessRun, doProcessStep, hc]

/-- C2 witness: a process entered with 400 µs remaining on the timer is
not switched to. -/
theorem c2_min_quanta_threshold_witness :
    doProcessStep samplePlat true
        { timerExpired := false, remaining := 400, leave := false,
          switchReason := none, timerExpiredAfterSwitch := false } sampleProcess =
      StepOut.brk StoppedExecutingReason.TimesliceExpired sampleProcess [] ∧
    doProcessRun samplePlat true
        [{ timerExpired := false, remaining := 400, leave := false,
           switchReason := none, timerExpiredAfterSwitch := false }] sampleProcess [] =
      RunOut.finished StoppedExecutingReason.TimesliceExpired sampleProcess [] :=
  c2_min_quanta_threshold samplePlat true
    { timerExpired := false, remaining := 400, leave := false,
      switchReason := none, timerExpiredAfterSwitch := false } [] sampleProcess
    (Or.inr (by decide))

/-- C6: if a `do_process` iteration reaches the state dispatch (timer
not expired, remaining above the threshold, no kernel preemption) with
the process in `Fault` state, the kernel panics, and never silently
continues: a faulted process is never run. -/
theorem c6_fault_panics (plat : PlatformEnv) (ipcWired : Bool)
    (e : IterEnv) (es : List IterEnv) (p : Process)
    (h1 : e.timerExpired = false) (h2 : MIN_QUANTA_THRESHOLD_US < e.remaining)
    (h3 : e.leave = false) (h4 : p.state = State.Fault) :
    doProcessStep plat ipcWired e p =
      StepOut.panicked "Attempted to schedule a faulty process" p [] ∧
    doProcessRun plat ipcWired (e :: es) p [] =
      RunOut.panicked "Attempted to schedule a faulty process" p [] := by
  have h2' : ¬ e.remaining ≤ MIN_QUANTA_THRESHOLD_US := Nat.not_le.mpr h2
  constructor
  · simp [doProcessStep, h1, h2', h3, h4]
  · simp [doProcessRun, doProcessStep, h1, h2', h3, h4]

/-- C6 witness: a concrete Fault-state process reaching the dispatch
panics. -/
theorem c6_fault_panics_witness :
    doProcessStep samplePlat true
        { timerExpired := false, remaining := 10000, leave := false,
          switchReason := none, timerExpiredAfterSwitch := false }
        { sampleProcess with state := State.Fault } =
      StepOut.panicked "Attempted to schedule a faulty process"
        { sampleProcess with state := State.Fault } [] ∧
    doProcessRun samplePlat true
        [{ timerExpired := false, remaining := 10000, leave := false,
           switchReason := none, timerExpiredAfterSwitch := false }]
        { sampleProcess with state := State.Fault } [] =
      RunOut.panicked "Attempted to schedule a faulty process"
        { sampleProcess with state := State.Fault } [] :=
  c6_fault_panics samplePlat true
    { timerExpired := false, remaining := 10000, leave := false,
      switchReason := none, timerExpiredAfterSwitch := false } []
    { sampleProcess with state := State.Fault }
    rfl (by decide) rfl rfl

/-- C7: when a `do_process` iteration reaches the state dispatch, a
process in `StoppedRunning` or `StoppedYielded` makes the run return
reason `Stopped`, and one in `StoppedFaulted` makes it return
`StoppedFaulted`, each with an empty event trace (so no context switch
into the process is invoked). -/
theorem c7_stopped_states (plat : PlatformEnv) (ipcWired : Bool)
    (e : IterEnv) (es : List IterEnv) (p : Process)
    (h1 : e.timerExpired = false) (h2 : MIN_QUANTA_THRESHOLD_US < e.remaining)
    (h3 : e.leave = false) :
    ((p.state = State.StoppedRunning ∨ p.state = State.StoppedYielded) →
      doProcessRun plat ipcWired (e :: es) p [] =
        RunOut.finished StoppedExecutingReason.Stopped p []) ∧
    (p.state = State.StoppedFaulted →
      doProcessRun plat ipcWired (e :: es) p [] =
        RunOut.finished StoppedExecutingReason.StoppedFaulted p []) := by
  have h2' : ¬ e.remaining ≤ MIN_QUANTA_THRESHOLD_US := Nat.not_le.mpr h2
  constructor
  · rintro (h4 | h4) <;> simp [doProcessRun, doProcessStep, h1, h2', h3, h4]
  · intro h4
    simp [doProcessRun, doProcessStep, h1, h2', h3, h4]

/-- C7 witness: a concrete `StoppedRunning` process yields reason
`Stopped` without a context switch. -/
theorem c7_stopped_states_witness :
    doProcessRun samplePlat true
        [{ timerExpired := false, remaining := 10000, leave := false,
           switchReason := none, timerExpiredAfterSwitch := false }]
        { sampleProcess with state := State.StoppedRunning } [] =
      RunOut.finished StoppedExecutingReason.Stopped
        { sampleProcess with state := State.StoppedRunning } [] :=
  (c7_stopped_states samplePlat true
    { timerExpired := false, remaining := 10000, leave := false,
      switchReason := none, timerExpiredAfterSwitch := false } []
    { sampleProcess with state := State.StoppedRunning }
    rfl (by decide) rfl).1 (Or.inl rfl)

end Tock

namespace Tock

/-- C4: for a non-YIELD syscall denied by the platform filter, the
handler performs exactly one return-value write, carrying the filter's
error; the process is returned unchanged; and the enclosing dispatcher
iteration continues the inner loop (a `cont`, not a `brk`). -/
theorem c4_filter_denial (plat : PlatformEnv) (ipcWired : Bool)
    (e : IterEnv) (p : Process) (sc : Syscall) (err : ReturnCode)
    (h1 : e.timerExpired = false) (h2 : MIN_QUANTA_THRESHOLD_US < e.remaining)
    (h3 : e.leave = false) (h4 : p.state = State.Running)
    (h5 : e.switchReason = some (ContextSwitchReason.SyscallFired sc))
    (h6 : sc ≠ Syscall.YIELD) (h7 : plat.filter p sc = some err) :
    handleSyscall plat p sc = (p, [Event.SetReturnValue err]) ∧
    doProcessStep plat ipcWired e p =
      StepOut.cont p [Event.ContextSwitch, Event.SetReturnValue err] := by
  have h2' : ¬ e.remaining ≤ MIN_QUANTA_THRESHOLD_US := Nat.not_le.mpr h2
  have hh : handleSyscall plat p sc = (p, [Event.SetReturnValue err]) := by
    simp [handleSyscall, h6, h7]
  refine ⟨hh, ?_⟩
  simp [doProcessStep, h1, h2', h3, h4, h5, hh]

/-- C4 witness: a denied COMMAND syscall produces one write of the
filter's error and the iteration continues. -/
theorem c4_filter_denial_witness :
    handleSyscall
        { filter := fun _ _ => some ReturnCode.FAIL,
          driver := fun _ => some sampleDriver,
          memop := fun _ _ => ReturnCode.SUCCESS }
        sampleProcess (Syscall.COMMAND 1 0 0 0) =
      (sampleProcess, [Event.SetReturnValue ReturnCode.FAIL]) ∧
    doProcessStep
        { filter := fun _ _ => some ReturnCode.FAIL,
          driver := fun _ => some sampleDriver,
          memop := fun _ _ => ReturnCode.SUCCESS }
        true
        { timerExpired := false, remaining := 10000, leave := false,
          switchReason := some (ContextSwitchReason.SyscallFired
            (Syscall.COMMAND 1 0 0 0)),
          timerExpiredAfterSwitch := false }
        sampleProcess =
      StepOut.cont sampleProcess
        [Event.ContextSwitch, Event.SetReturnValue ReturnCode.FAIL] :=
  c4_filter_denial
    { filter := fun _ _ => some ReturnCode.FAIL,
      driver := fun _ => some sampleDriver,
      memop := fun _ _ => ReturnCode.SUCCESS }
    true
    { timerExpired := false, remaining := 10000, leave := false,
      switchReason := some (ContextSwitchReason.SyscallFired
        (Syscall.COMMAND 1 0 0 0)),
      timerExpiredAfterSwitch := false }
    sampleProcess (Syscall.COMMAND 1 0 0 0) ReturnCode.FAIL
    rfl (by decide) rfl rfl rfl (by decide) rfl

/-- Process whose `allow` validation always fails with `EINVAL`, used
in the C3 counterexample. -/
def c3Process : Process where
  appid := { index := 0, id := 0 }
  state := State.Running
  tasks := []
  allowFn := fun _ _ => Except.error ReturnCode.EINVAL

/-- C3 counterexample: an ALLOW syscall that passes the filter, whose
validation fails with `EINVAL`, but whose target driver is absent. The
written return value is `ENODEVICE`, not the validation error, and the
trace contains no `ProcessAllowCheck`: the driver lookup, not the
process's validation, is consulted first. -/
theorem c3_allow_counterexample :
    c3Process.allowFn 0 4 = Except.error ReturnCode.EINVAL ∧
    samplePlatNoDriver.filter c3Process (Syscall.ALLOW 1 0 0 4) = none ∧
    handleSyscall samplePlatNoDriver c3Process (Syscall.ALLOW 1 0 0 4) =
      (c3Process, [Event.SetReturnValue ReturnCode.ENODEVICE]) ∧
    ReturnCode.ENODEVICE ≠ ReturnCode.EINVAL :=
  ⟨rfl, rfl, rfl, by decide⟩

/-- C3 amended: for an ALLOW syscall that passes the filter, the driver
lookup happens first. If the driver is absent, `ENODEVICE` is written
and the process's validation is never consulted. If the driver is
present, the validation of `[addr, addr+size)` is consulted before the
driver's `allow`: on failure the validation error is written and the
driver's `allow` is not invoked; only on success is `allow(appid, sub,
slice)` invoked and its result written. -/
theorem c3_allow_amended (plat : PlatformEnv) (p : Process)
    (dn sn addr size : Nat)
    (hf : plat.filter p (Syscall.ALLOW dn sn addr size) = none) :
    (plat.driver dn = none →
      handleSyscall plat p (Syscall.ALLOW dn sn addr size) =
        (p, [Event.SetReturnValue ReturnCode.ENODEVICE])) ∧
    (∀ d err, plat.driver dn = some d →
      p.allowFn addr size = Except.error err →
      handleSyscall plat p (Syscall.ALLOW dn sn addr size) =
        (p, [Event.ProcessAllowCheck addr size, Event.SetReturnValue err])) ∧
    (∀ d oslice, plat.driver dn = some d →
      p.allowFn addr size = Except.ok oslice →
      handleSyscall plat p (Syscall.ALLOW dn sn addr size) =
        (p, [Event.ProcessAllowCheck addr size,
             Event.DriverAllowCall sn oslice,
             Event.SetReturnValue (d.allow p.appid sn oslice)])) := by
  refine ⟨?_, ?_, ?_⟩
  · intro hd
    simp [handleSyscall, dispatchSyscall, hf, hd]
  · intro d err hd he
    simp [handleSyscall, dispatchSyscall, hf, hd, he]
  · intro d oslice hd he
    simp [handleSyscall, dispatchSyscall, hf, hd, he]

/-- C3 amended witness: present driver, failing validation — the
validation error `EINVAL` is written, the driver's allow not invoked. -/
theorem c3_allow_amended_witness :
    samplePlat.driver 1 = some sampleDriver ∧
    c3Process.allowFn 0 4 = Except.error ReturnCode.EINVAL ∧
    handleSyscall samplePlat c3Process (Syscall.ALLOW 1 0 0 4) =
      (c3Process, [Event.ProcessAllowCheck 0 4,
                   Event.SetReturnValue ReturnCode.EINVAL]) :=
  ⟨rfl, rfl,
    (c3_allow_amended samplePlat c3Process 1 0 0 4 rfl).2.1
      sampleDriver ReturnCode.EINVAL rfl rfl⟩

/-- Whether a queued task is a pending function-call callback with the
given identity. -/
def taskHasCallbackId (t : Task) (id : CallbackId) : Bool :=
  match t with
  | Task.FunctionCall (some cid) _ _ _ _ _ => cid == id
  | _ => false

/-- C5: a SUBSCRIBE(d, s, ptr) syscall that passes the filter first
removes every pending callback with identity (d, s) from the task
queue, so afterwards no task with that identity remains pending. Since
this holds for an arbitrary starting process, it holds in particular
for the second of two successive SUBSCRIBE(d,s,·) calls, whatever
callbacks for the first subscription were enqueued in between: after
SUBSCRIBE(d,s,p1) then SUBSCRIBE(d,s,p2) no callback for p1 (identity
(d,s)) is pending. When the driver is present, the subscription handed
to it is `none` exactly when `ptr` is null (0), and otherwise the
constructed record (caller AppId, identity, cookie, pointer). -/
theorem c5_subscribe_removes_pending (plat : PlatformEnv) (p : Process)
    (d s ptr appdata : Nat)
    (hf : plat.filter p (Syscall.SUBSCRIBE d s ptr appdata) = none) :
    ((handleSyscall plat p (Syscall.SUBSCRIBE d s ptr appdata)).1.tasks =
      removePendingCallbacks p.tasks
        { driver_num := d, subscribe_num := s }) ∧
    (∀ t, t ∈ (handleSyscall plat p (Syscall.SUBSCRIBE d s ptr appdata)).1.tasks →
      taskHasCallbackId t { driver_num := d, subscribe_num := s } = false) ∧
    (∀ drv, plat.driver d = some drv →
      (handleSyscall plat p (Syscall.SUBSCRIBE d s ptr appdata)).2 =
        [Event.RemovePendingCallbacks { driver_num := d, subscribe_num := s },
         Event.DriverSubscribeCall d s
           (if ptr = 0 then none
            else some { app_id := p.appid,
                        callback_id := { driver_num := d, subscribe_num := s },
                        appdata := appdata, fn_ptr := ptr }),
         Event.SetReturnValue
           (drv.subscribe s
             (if ptr = 0 then none
              else some { app_id := p.appid,
                          callback_id := { driver_num := d, subscribe_num := s },
                          appdata := appdata, fn_ptr := ptr }) p.appid)]) := by
  have htasks :
      (handleSyscall plat p (Syscall.SUBSCRIBE d s ptr appdata)).1.tasks =
        removePendingCallbacks p.tasks
          { driver_num := d, subscribe_num := s } := by
    cases hd : plat.driver d <;>
      simp [handleSyscall, dispatchSyscall, hf, hd]
  refine ⟨htasks, ?_, ?_⟩
  · intro t ht
    rw [htasks] at ht
    rcases List.mem_filter.mp ht with ⟨_, hpred⟩
    cases t with
    | FunctionCall src pc a0 a1 a2 a3 =>
        cases src with
        | none => rfl
        | some cid =>
            simp only [taskHasCallbackId]
            simp only [decide_eq_true_eq] at hpred
            exact beq_eq_false_iff_ne.mpr hpred
    | IPC o k => rfl
  · intro drv hd
    simp [handleSyscall, dispatchSyscall, hf, hd]

/-- C5 witness: a queue holding a pending (3,1) callback, then
SUBSCRIBE(3,1,ptr=5): the pending callback is removed and the driver
receives the new record. -/
theorem c5_subscribe_removes_pending_witness :
    ((handleSyscall samplePlat
        { appid := { index := 0, id := 0 }, state := State.Running,
          tasks := [Task.FunctionCall
            (some { driver_num := 3, subscribe_num := 1 }) 77 0 0 0 0],
          allowFn := fun _ _ => Except.ok none }
        (Syscall.SUBSCRIBE 3 1 5 9)).1.tasks =
      removePendingCallbacks
        [Task.FunctionCall
          (some { driver_num := 3, subscribe_num := 1 }) 77 0 0 0 0]
        { driver_num := 3, subscribe_num := 1 }) ∧
    (∀ t, t ∈ (handleSyscall samplePlat
        { appid := { index := 0, id := 0 }, state := State.Running,
          tasks := [Task.FunctionCall
            (some { driver_num := 3, subscribe_num := 1 }) 77 0 0 0 0],
          allowFn := fun _ _ => Except.ok none }
        (Syscall.SUBSCRIBE 3 1 5 9)).1.tasks →
      taskHasCallbackId t { driver_num := 3, subscribe_num := 1 } = false) ∧
    (∀ drv, samplePlat.driver 3 = some drv →
      (handleSyscall samplePlat
        { appid := { index := 0, id := 0 }, state := State.Running,
          tasks := [Task.FunctionCall
            (some { driver_num := 3, subscribe_num := 1 }) 77 0 0 0 0],
          allowFn := fun _ _ => Except.ok none }
        (Syscall.SUBSCRIBE 3 1 5 9)).2 =
        [Event.RemovePendingCallbacks { driver_num := 3, subscribe_num := 1 },
         Event.DriverSubscribeCall 3 1
           (if (5 : Nat) = 0 then none
            else some { app_id := { index := 0, id := 0 },
                        callback_id := { driver_num := 3, subscribe_num := 1 },
                        appdata := 9, fn_ptr := 5 }),
         Event.SetReturnValue
           (drv.subscribe 1
             (if (5 : Nat) = 0 then none
              else some { app_id := { index := 0, id := 0 },
                          callback_id := { driver_num := 3, subscribe_num := 1 },
                          appdata := 9, fn_ptr := 5 })
             { index := 0, id := 0 })]) :=
  c5_subscribe_removes_pending samplePlat
    { appid := { index := 0, id := 0 }, state := State.Running,
      tasks := [Task.FunctionCall
        (some { driver_num := 3, subscribe_num := 1 }) 77 0 0 0 0],
      allowFn := fun _ _ => Except.ok none }
    3 1 5 9 rfl

end Tock

namespace Tock

/-- C8: `process_map_or(default, appid, F)` is a direct-index lookup at
`appid.index` that returns `default` (for every closure `F`, hence
without invoking it) when the index is out of range, the slot is empty,
or the occupant's identifier differs; when the occupant's identifier
matches it applies `F` to the occupant whatever its state (the lookup
never inspects the state, so Stopped* occupants match too); and for
every `AppId` accepted by `appid_is_valid`, looking up `appid()`
returns an `AppId` equal (under the code's `AppId` equality) to the one
looked up. -/
theorem c8_process_map_or (processes : List (Option Process)) :
    (∀ (R : Type) (default : R) (appid : AppId) (F : Process → R),
      processes.get? appid.index = none →
      process_map_or processes default appid F = default) ∧
    (∀ (R : Type) (default : R) (appid : AppId) (F : Process → R),
      processes.get? appid.index = some none →
      process_map_or processes default appid F = default) ∧
    (∀ (R : Type) (default : R) (appid : AppId) (F : Process → R)
      (proc : Process),
      processes.get? appid.index = some (some proc) →
      proc.appid.id ≠ appid.id →
      process_map_or processes default appid F = default) ∧
    (∀ (R : Type) (default : R) (appid : AppId) (F : Process → R)
      (proc : Process),
      processes.get? appid.index = some (some proc) →
      proc.appid.id = appid.id →
      process_map_or processes default appid F = F proc) ∧
    (∀ appid : AppId, appid_is_valid processes appid = true →
      ∃ b, process_map_or processes none appid (fun proc => some proc.appid) =
          some b ∧ AppId.rustEq b appid = true) := by
  refine ⟨?_, ?_, ?_, ?_, ?_⟩
  · intro R default appid F h
    rw [List.get?_eq_getElem?] at h
    simp [process_map_or, h]
  · intro R default appid F h
    rw [List.get?_eq_getElem?] at h
    simp [process_map_or, h]
  · intro R default appid F proc h hne
    rw [List.get?_eq_getElem?] at h
    simp [process_map_or, h, AppId.rustEq, hne]
  · intro R default appid F proc h heq
    rw [List.get?_eq_getElem?] at h
    simp [process_map_or, h, AppId.rustEq, heq]
  · intro appid hv
    cases hg : processes[appid.index]? with
    | none => simp [appid_is_valid, hg] at hv
    | some entry =>
        cases entry with
        | none => simp [appid_is_valid, hg] at hv
        | some proc =>
            have hid : proc.appid.id = appid.id := by
              simpa [appid_is_valid, hg] using hv
            refine ⟨proc.appid, ?_, ?_⟩
            · simp [process_map_or, hg, AppId.rustEq, hid]
            · simp [AppId.rustEq, hid]

/-- A Stopped-state process occupying slot 0 with identifier 7, used in
the C8 witness: `process_map_or` matches it despite the Stopped state. -/
def sampleStoppedProcess : Process where
  appid := { index := 0, id := 7 }
  state := State.StoppedRunning
  tasks := []
  allowFn := fun _ _ => Except.ok none

/-- C8 witness: a valid `AppId` (slot 0, id 7, occupant in
`StoppedRunning`) round-trips through `process_map_or`. -/
theorem c8_process_map_or_witness :
    ∃ b, process_map_or [some sampleStoppedProcess] none
        { index := 0, id := 7 } (fun proc => some proc.appid) = some b ∧
      AppId.rustEq b { index := 0, id := 7 } = true :=
  (c8_process_map_or [some sampleStoppedProcess]).2.2.2.2
    { index := 0, id := 7 } rfl

/-- Under dummy-timer readings (cooperative run) a single dispatcher
iteration never breaks with `TimesliceExpired`: the top-of-loop check
sees a never-expired timer with unbounded remaining, and the
interrupted-switch check sees `has_expired() = false`. -/
theorem doProcessStep_dummy_not_expired (plat : PlatformEnv)
    (ipcWired : Bool) (e : IterEnv) (p : Process) (hd : e.dummyTimer)
    (p' : Process) (evs : List Event) :
    doProcessStep plat ipcWired e p ≠
      StepOut.brk StoppedExecutingReason.TimesliceExpired p' evs := by
  intro h
  obtain ⟨h1, h2, h3⟩ := hd
  simp only [dummyHasExpired, dummyRemainingUs] at h1 h2 h3
  simp only [doProcessStep, h1, h2, h3, MIN_QUANTA_THRESHOLD_US] at h
  norm_num at h
  repeat' split at h
  all_goals simp_all

/-- Under dummy-timer readings throughout, the whole `do_process` run
never finishes with `TimesliceExpired`. -/
theorem doProcessRun_dummy_not_expired (plat : PlatformEnv)
    (ipcWired : Bool) (envs : List IterEnv) :
    ∀ (p : Process) (acc : List Event), (∀ e ∈ envs, e.dummyTimer) →
      ∀ r p' evs,
        doProcessRun plat ipcWired envs p acc = RunOut.finished r p' evs →
        r ≠ StoppedExecutingReason.TimesliceExpired := by
  induction envs with
  | nil =>
      intro p acc _ r p' evs h
      simp [doProcessRun] at h
  | cons e es ih =>
      intro p acc hdum r p' evs h hr
      subst hr
      have he : e.dummyTimer := hdum e (List.mem_cons_self e es)
      have hes : ∀ x ∈ es, x.dummyTimer :=
        fun x hx => hdum x (List.mem_cons_of_mem e hx)
      simp only [doProcessRun] at h
      split at h
      · rename_i r0 p0 evs0 hstep
        cases h
        exact doProcessStep_dummy_not_expired plat ipcWired e p he _ _ hstep
      · rename_i p0 evs0 hstep
        exact ih p0 (acc ++ evs0) hes _ p' evs h rfl
      · cases h

/-- C9: a cooperative invocation of `do_process` (`timeslice_us =
none`), whose per-iteration timer readings are those of the dummy
scheduler timer, reports execution time `none` and never returns reason
`TimesliceExpired`. -/
theorem c9_cooperative_run (plat : PlatformEnv) (ipcWired : Bool)
    (envs : List IterEnv) (exitRemaining : Nat) (p : Process)
    (hdum : ∀ e ∈ envs, e.dummyTimer) :
    (doProcess plat ipcWired none envs exitRemaining p).2 = none ∧
    ∀ r p' evs,
      (doProcess plat ipcWired none envs exitRemaining p).1 =
        RunOut.finished r p' evs →
      r ≠ StoppedExecutingReason.TimesliceExpired := by
  refine ⟨rfl, ?_⟩
  intro r p' evs h
  exact doProcessRun_dummy_not_expired plat ipcWired envs p [] hdum r p' evs h

/-- C9 witness: a cooperative run of a yielded process with an empty
task queue finishes with `NoWorkLeft` and reports no execution time. -/
theorem c9_cooperative_run_witness :
    (doProcess samplePlat true none
        [{ timerExpired := false, remaining := 4294967295, leave := false,
           switchReason := none, timerExpiredAfterSwitch := false }] 0
        { sampleProcess with state := State.Yielded }).2 = none ∧
    ∀ r p' evs,
      (doProcess samplePlat true none
          [{ timerExpired := false, remaining := 4294967295, leave := false,
             switchReason := none, timerExpiredAfterSwitch := false }] 0
          { sampleProcess with state := State.Yielded }).1 =
        RunOut.finished r p' evs →
      r ≠ StoppedExecutingReason.TimesliceExpired :=
  c9_cooperative_run samplePlat true
    [{ timerExpired := false, remaining := 4294967295, leave := false,
       switchReason := none, timerExpiredAfterSwitch := false }] 0
    { sampleProcess with state := State.Yielded }
    (by
      intro e he
      rw [List.mem_singleton] at he
      subst he
      exact ⟨rfl, rfl, rfl⟩)

/-- If `appid_is_valid` rejects an `AppId`, `process_map_or` returns
the default for every closure. -/
theorem process_map_or_of_invalid {R : Type}
    (processes : List (Option Process)) (appid : AppId) (default : R)
    (F : Process → R) (h : appid_is_valid processes appid = false) :
    process_map_or processes default appid F = default := by
  cases hg : processes[appid.index]? with
  | none => simp [process_map_or, hg]
  | some entry =>
      cases entry with
      | none => simp [process_map_or, hg]
      | some proc =>
          have hid : ¬ proc.appid.id = appid.id := by
            simpa [appid_is_valid, hg] using h
          simp [process_map_or, hg, AppId.rustEq, hid]

/-- C10: in `kernel_loop`'s inner loop, when `next()` names an `AppId`
for which `process_map_or` finds no matching live process (out-of-range
index, empty slot, or identifier mismatch — exactly when
`appid_is_valid` is false), the iteration produces no `do_process` call
and no `scheduler.result` report: its action trace is empty. -/
theorem c10_stale_appid_skipped (processes : List (Option Process))
    (appid : AppId) (ts : Option Nat)
    (runProcess : Process → Option Nat → StoppedExecutingReason × Option Nat)
    (h : appid_is_valid processes appid = false) :
    kernelLoopInnerIteration processes (some appid, ts) runProcess = [] := by
  simp only [kernelLoopInnerIteration]
  exact process_map_or_of_invalid processes appid [] _ h

/-- C10 witness: an empty process table and a scheduler naming app
(0, 1): the iteration does nothing. -/
theorem c10_stale_appid_skipped_witness :
    kernelLoopInnerIteration [] (some { index := 0, id := 1 }, some 10000)
      (fun _ _ => (StoppedExecutingReason.NoWorkLeft, none)) = [] :=
  c10_stale_appid_skipped [] { index := 0, id := 1 } (some 10000)
    (fun _ _ => (StoppedExecutingReason.NoWorkLeft, none)) rfl

end Tock
